import Mathlib

/-!
# Verification of the seomax SERP / brand-monitoring backend

Shallow embedding of the SERP-update and brand-mention analysis pipeline of
the `backend` package (main.py, llm_worker.py, llm_service.py,
llm_service_modern.py, models.py) together with the brand-project CRUD
endpoints, and proofs of the spec claims about them.

Strings are modelled by Lean `String`; the character-level helpers below
mirror Python's `str.lower` (ASCII), `str.strip`, `str.split` on a one-char
separator, and the `in` substring test, by structural recursion on the
character list so that all definitions evaluate inside the kernel.
-/

namespace Seomax

/-- Python `sep.join`-inverse `s.split(sep)` for a one-character separator,
on character lists.  `split('\n')` of an empty string yields `[""]`, which
this definition matches (`[[]]`). -/
def splitOnChar (sep : Char) : List Char → List (List Char)
  | [] => [[]]
  | c :: cs =>
    let r := splitOnChar sep cs
    if c = sep then [] :: r
    else
      match r with
      | [] => [[c]]
      | h :: t => (c :: h) :: t

/-- Python `str.strip()` on a character list: drop whitespace from both ends. -/
def stripChars (cs : List Char) : List Char :=
  ((cs.dropWhile Char.isWhitespace).reverse.dropWhile Char.isWhitespace).reverse

/-- Python `str.strip()`. -/
def pyStrip (s : String) : String :=
  ⟨stripChars s.data⟩

/-- Python `str.lower()` (ASCII case folding, which is what the inputs in the
repository exercise). -/
def pyLower (s : String) : String :=
  ⟨s.data.map Char.toLower⟩

/-- Python `s.split(sep)` for a one-character separator. -/
def pySplit (sep : Char) (s : String) : List String :=
  (splitOnChar sep s.data).map (fun l => ⟨l⟩)

/-- Python's substring test `needle in haystack`. -/
def containsSub (needle haystack : String) : Bool :=
  haystack.data.tails.any (fun t => needle.data.isPrefixOf t)

/-- Case-insensitive occurrence: `name.lower() in text.lower()`, the mention
test used throughout the analyzer code. -/
def occursCI (name text : String) : Bool :=
  containsSub (pyLower name) (pyLower text)


/-! ## Entity extraction parsers

Three near-duplicate revisions of the reply parser exist in the source; each
is embedded separately.  The secondary LLM call itself is external I/O, so
each parser takes the reply text (`companies_text` in the source) as input. -/

/-- Embeds `llm_service.LLMService.extract_companies_from_text`, parse step
(llm_service.py lines 183-185): split the reply on commas, strip each entry,
keep entries that are non-empty and longer than 2 characters, cap at 10. -/
def extract_companies_from_text_parse (companies_text : String) : List String :=
  let companies := (pySplit ',' companies_text).map pyStrip
  (companies.filter (fun c => c != "" && decide (2 < c.length))).take 10

/-- Embeds `main.extract_companies_from_response_direct`, parse step (main.py lines
269-270): split the reply on commas, strip, drop entries that are empty after
stripping, cap at 10.  No minimum-length filter in this revision. -/
def extract_companies_direct_parse (companies_text : String) : List String :=
  ((((pySplit ',' companies_text).map pyStrip).filter (fun c => c != ""))).take 10

/-- Embeds `LLMWorker.extract_companies_from_response`, parse step (llm_worker.py
lines 100-108).  `jsonList` is the result of `json.loads(companies_text)`:
`.ok (some l)` when it parses to a list of names, `.ok none` when it parses
to a non-list value (the code returns `[]`), `.error ()` when parsing raises
(the code falls back to the comma split).  No minimum-length filter. -/
def extract_companies_worker_parse (jsonList : Except Unit (Option (List String)))
    (companies_text : String) : List String :=
  match jsonList with
  | .ok (some companies) => companies.take 10
  | .ok none => []
  | .error _ => ((((pySplit ',' companies_text).map pyStrip).filter (fun c => c != ""))).take 10

/-! ## The worker mention analyzer -/

/-- Result dictionary of `LLMWorker.analyze_brand_mentions_in_response`
(llm_worker.py lines 117-169). -/
structure MentionAnalysis where
  brand_mentioned : Bool
  competitor_mentioned : Bool
  mentioned_brands : List String
  mentioned_competitors : List String
  mentioned_competitor : Option String
  brand_position : Option Nat
  competitor_position : Option Nat
  confidence : Nat
deriving Repr, DecidableEq

/-- One-based index of the first line containing `name` case-insensitively:
the inner `for i, line in enumerate(lines, 1)` position search. -/
def firstLineWith (name : String) : Nat → List String → Option Nat
  | _, [] => none
  | i, line :: rest =>
    if occursCI name line then some i else firstLineWith name (i + 1) rest

/-- The brand loop of `analyze_brand_mentions_in_response` (lines 134-143):
collects matching brands in order; `brand_position` is overwritten by each
matching brand that also matches some line, and kept otherwise. -/
def brandScan (text : String) (lines : List String) (brands : List String) :
    List String × Option Nat :=
  brands.foldl
    (fun acc brand =>
      if occursCI brand text then
        (acc.1 ++ [brand],
         match firstLineWith brand 1 lines with
         | some i => some i
         | none => acc.2)
      else acc)
    ([], none)

/-- The competitor loop (lines 145-158): stops at the first competitor whose
name occurs in the text (`break`), recording its first matching line. -/
def compScan (text : String) (lines : List String) :
    List String → Option (String × Option Nat)
  | [] => none
  | c :: rest =>
    if occursCI c text then some (c, firstLineWith c 1 lines)
    else compScan text lines rest

/-- Embeds `LLMWorker.analyze_brand_mentions_in_response` (llm_worker.py lines
117-169).  An empty (falsy) response short-circuits to the all-false record
with confidence 0; the Python early-return dictionary has no
`mentioned_competitor` key, and its consumer reads it with `.get`, so it is
modelled as `none`. -/
def analyze_brand_mentions_in_response (llm_response : String)
    (brand_names competitor_names : List String) : MentionAnalysis :=
  if llm_response = "" then
    { brand_mentioned := false, competitor_mentioned := false,
      mentioned_brands := [], mentioned_competitors := [],
      mentioned_competitor := none, brand_position := none,
      competitor_position := none, confidence := 0 }
  else
    let lines := pySplit '\n' llm_response
    let bres := brandScan llm_response lines brand_names
    let cres := compScan llm_response lines competitor_names
    { brand_mentioned := !bres.1.isEmpty,
      competitor_mentioned := cres.isSome,
      mentioned_brands := bres.1,
      mentioned_competitors := match cres with | some (c, _) => [c] | none => [],
      mentioned_competitor := cres.map (fun r => r.1),
      brand_position := bres.2,
      competitor_position := match cres with | some (_, pos) => pos | none => none,
      confidence := 95 }

/-! ## Data model (models.py)

Rows are embedded as records; uuid columns become `Nat` identifiers drawn
from a per-state counter (the model's stand-in for `uuid4`), timestamps
become `Int` (seconds).  Only the columns the pipeline reads or writes are
carried. -/

/-- A `words` row (models.py `Word`). -/
structure WordRec where
  uuid : Nat
  name : String
  group_id : Option Nat
  status : Nat
deriving Repr, DecidableEq

/-- An `llm` row (models.py `LLM`). -/
structure LLMRec where
  uuid : Nat
  name : String
  is_active : Nat
deriving Repr, DecidableEq

/-- A `word_serp` row (models.py `WordSerp`). -/
structure SerpRec where
  uuid : Nat
  word_id : Nat
  llm_id : Nat
  content : String
  create_time : Int
deriving Repr, DecidableEq

/-- A `companies` row (models.py `Company`). -/
structure CompanyRec where
  name : String
  serp_id : Nat
deriving Repr, DecidableEq

/-- A `brand_projects` row (models.py `BrandProject`). -/
structure ProjectRec where
  uuid : Nat
  name : String
  brand_name : String
  word_group_id : Option Nat
  user_id : Nat
  status : Nat
deriving Repr, DecidableEq

/-- A `competitors` row (models.py `Competitor`). -/
structure CompetitorRec where
  uuid : Nat
  name : String
  project_id : Nat
deriving Repr, DecidableEq

/-- A `brand_mentions` row (models.py `BrandMention`).  The column defaults
(`brand_position`/`competitor_position` NULL, `analysis_confidence` 100)
apply when a writer does not set them. -/
structure MentionRec where
  serp_id : Nat
  project_id : Nat
  brand_mentioned : Nat
  competitor_mentioned : Nat
  mentioned_competitor : Option String
  brand_position : Option Nat
  competitor_position : Option Nat
  analysis_confidence : Nat
deriving Repr, DecidableEq

/-- The tables the pipeline writes, plus the uuid counter. -/
structure DB where
  serps : List SerpRec
  companies : List CompanyRec
  mentions : List MentionRec
  nextUuid : Nat
deriving Repr, DecidableEq

/-! ## Direct SERP update path (main.py) -/

/-- The environment of one batch run: the clock, the brand-project tables it
reads, and the two external LLM effects.  `fetch w l` is the provider call
for word-uuid `w` and llm-uuid `l`: `none` covers every no-write branch of
the source dispatch (unsupported provider name, missing API key, an
exception inside the `get_*_response_direct` helper, or a falsy response);
`extract t` is `extract_companies_from_response_direct` on response `t`,
`.error ()` when that helper raises. -/
structure Env where
  now : Int
  projects : List ProjectRec
  competitors : List CompetitorRec
  fetch : Nat → Nat → Option String
  extract : String → Except Unit (List String)

/-- Embeds `datetime.now(timezone.utc) - timedelta(days=14)` in seconds. -/
def two_weeks_ago (now : Int) : Int := now - 14 * 86400

/-- The freshness probe (main.py lines 309-317, llm_worker.py lines 179-185):
is there a SerpResult for the pair newer than the threshold? -/
def freshExists (serps : List SerpRec) (wordId llmId : Nat) (threshold : Int) : Bool :=
  serps.any (fun s => s.word_id == wordId && s.llm_id == llmId &&
    decide (threshold < s.create_time))

/-- The company-save loop (main.py lines 379-391, llm_worker.py lines
215-228): append each extracted name unless a row with the same name and
serp id already exists. -/
def addCompanies (serpId : Nat) (names : List String)
    (companies : List CompanyRec) : List CompanyRec :=
  names.foldl
    (fun acc n =>
      if acc.any (fun c => c.name == n && c.serp_id == serpId) then acc
      else acc ++ [{ name := n, serp_id := serpId }])
    companies

/-- Embeds `main.analyze_brand_mentions_for_word_direct` (main.py lines 417-470) as
the list of `BrandMention` rows it adds: for every brand project linked to
the word's group, one brand-only row when the project has no competitors,
otherwise one row per competitor whether or not that competitor occurs in
the response.  Unset columns take the model defaults. -/
def analyze_brand_mentions_for_word_direct (projects : List ProjectRec)
    (competitors : List CompetitorRec) (groupId : Nat) (serpId : Nat)
    (llm_response : String) : List MentionRec :=
  (projects.filter (fun p => p.word_group_id == some groupId)).flatMap (fun p =>
    let clist := competitors.filter (fun c => c.project_id == p.uuid)
    let bm : Nat := if occursCI p.brand_name llm_response then 1 else 0
    if clist.isEmpty then
      [{ serp_id := serpId, project_id := p.uuid, brand_mentioned := bm,
         competitor_mentioned := 0, mentioned_competitor := none,
         brand_position := none, competitor_position := none,
         analysis_confidence := 100 }]
    else
      clist.map (fun c =>
        { serp_id := serpId, project_id := p.uuid, brand_mentioned := bm,
          competitor_mentioned := if occursCI c.name llm_response then 1 else 0,
          mentioned_competitor := some c.name,
          brand_position := none, competitor_position := none,
          analysis_confidence := 100 }))

/-- One iteration of the inner loop of `update_serp_data_direct` (main.py
lines 300-406) for the pair `(w, l)`.  The per-pair `except` handler only
logs and `continue`s — it does NOT roll back, so when extraction raises the
already-flushed SerpResult stays in the session and is committed by a later
batch commit; the model therefore keeps `db1` in the `.error` branch. -/
def processPairDirect (env : Env) (w : WordRec) (l : LLMRec) (db : DB) : DB :=
  if freshExists db.serps w.uuid l.uuid (two_weeks_ago env.now) then db
  else
    match env.fetch w.uuid l.uuid with
    | none => db
    | some text =>
      if text = "" then db
      else
        let serp : SerpRec :=
          { uuid := db.nextUuid, word_id := w.uuid, llm_id := l.uuid,
            content := text, create_time := env.now }
        let db1 : DB := { db with serps := db.serps ++ [serp], nextUuid := db.nextUuid + 1 }
        match env.extract text with
        | .error _ => db1
        | .ok companies =>
          let db2 : DB := { db1 with
            companies := addCompanies serp.uuid companies db1.companies }
          match w.group_id with
          | none => db2
          | some gid =>
            { db2 with mentions := (db2.mentions ++
                analyze_brand_mentions_for_word_direct env.projects env.competitors
                  gid serp.uuid text) }

/-- The word × llm cross-product the batch iterates: active words (optionally
restricted to one group) times active providers. -/
def activePairs (words : List WordRec) (llms : List LLMRec) (groupId : Option Nat) :
    List (WordRec × LLMRec) :=
  let ws := (words.filter (fun w => w.status == 1)).filter
    (fun w => match groupId with | none => true | some g => w.group_id == some g)
  let ls := llms.filter (fun l => l.is_active == 1)
  ws.flatMap (fun w => ls.map (fun l => (w, l)))

/-- Embeds `main.update_serp_data_direct` (main.py lines 279-415): fold the per-pair
step over the cross-product.  The intermediate `commit` calls only move data
from session to database; the final state seen by later reads is the fold
result. -/
def update_serp_data_direct (env : Env) (words : List WordRec) (llms : List LLMRec)
    (groupId : Option Nat) (db : DB) : DB :=
  (activePairs words llms groupId).foldl (fun d p => processPairDirect env p.1 p.2 d) db

/-- All serp rows of one keyword/provider pair. -/
def pairSerps (serps : List SerpRec) (wordId llmId : Nat) : List SerpRec :=
  serps.filter (fun s => s.word_id == wordId && s.llm_id == llmId)

/-- The `WordSerp` row both paths construct for a pair (main.py lines
365-370, llm_worker.py lines 201-206). -/
def newSerp (env : Env) (w : WordRec) (l : LLMRec) (db : DB) (text : String) :
    SerpRec :=
  { uuid := db.nextUuid, word_id := w.uuid, llm_id := l.uuid,
    content := text, create_time := env.now }

/-! ## Worker path (llm_worker.py) -/

/-- Environment of a worker cycle.  `fetch` is `get_llm_response` (`none`
covers unsupported providers, HTTP failure and falsy responses — all caught
inside that helper); `extractW` is `extract_companies_from_response`, which
catches every exception internally and returns a list, so it is total;
`raises w l = true` means some exception escapes inside the `try` block of
`process_word_with_llm` for that pair (in the source that can only be a
database error, since every helper catches its own exceptions):
`db.rollback()` then discards the pair's uncommitted writes — the session
state reverts to the last commit, i.e. the state before the pair — and the
function returns `False`. -/
structure WorkerEnv where
  now : Int
  projects : List ProjectRec
  competitors : List CompetitorRec
  fetch : Nat → Nat → Option String
  extractW : String → List String
  raises : Nat → Nat → Bool

/-- Embeds `LLMWorker.analyze_brand_mentions_for_word` (llm_worker.py lines
243-289) as the list of mention rows it adds: the first brand project of the
word's group (a single `db.scalar` row), analyzed with
`analyze_brand_mentions_in_response`; one row, confidence from the analysis
(95, or 0 for an empty response). -/
def analyze_brand_mentions_for_word (projects : List ProjectRec)
    (competitors : List CompetitorRec) (w : WordRec) (serpId : Nat)
    (llm_response : String) : List MentionRec :=
  match w.group_id with
  | none => []
  | some gid =>
    match projects.find? (fun p => p.word_group_id == some gid) with
    | none => []
    | some p =>
      let cnames := (competitors.filter (fun c => c.project_id == p.uuid)).map
        (fun c => c.name)
      let a := analyze_brand_mentions_in_response llm_response [p.brand_name] cnames
      [{ serp_id := serpId, project_id := p.uuid,
         brand_mentioned := if a.brand_mentioned then 1 else 0,
         competitor_mentioned := if a.competitor_mentioned then 1 else 0,
         mentioned_competitor := a.mentioned_competitor,
         brand_position := a.brand_position,
         competitor_position := a.competitor_position,
         analysis_confidence := a.confidence }]

/-- Embeds `LLMWorker.process_word_with_llm` (llm_worker.py lines 172-241).  Commits
at the end of each successful pair; on an escaping exception rolls back to
the pre-pair state and returns `False`. -/
def process_word_with_llm (env : WorkerEnv) (w : WordRec) (l : LLMRec)
    (db : DB) : DB × Bool :=
  if env.raises w.uuid l.uuid then (db, false)
  else if freshExists db.serps w.uuid l.uuid (two_weeks_ago env.now) then (db, false)
  else
    match env.fetch w.uuid l.uuid with
    | none => (db, false)
    | some text =>
      if text = "" then (db, false)
      else
        let serp : SerpRec :=
          { uuid := db.nextUuid, word_id := w.uuid, llm_id := l.uuid,
            content := text, create_time := env.now }
        let db1 : DB := { db with serps := db.serps ++ [serp], nextUuid := db.nextUuid + 1 }
        let db2 : DB := { db1 with
          companies := addCompanies serp.uuid (env.extractW text) db1.companies }
        let db3 : DB := { db2 with mentions := (db2.mentions ++
          analyze_brand_mentions_for_word env.projects env.competitors w serp.uuid text) }
        (db3, true)

/-- Embeds `LLMWorker.run_worker_cycle` (llm_worker.py lines 292-322): fold
`process_word_with_llm` over active words × active providers, counting the
successful pairs; a pair's failure never stops the fold. -/
def run_worker_cycle (env : WorkerEnv) (words : List WordRec) (llms : List LLMRec)
    (db : DB) : DB × Nat :=
  let ws := words.filter (fun w => w.status == 1)
  let ls := llms.filter (fun l => l.is_active == 1)
  (ws.flatMap (fun w => ls.map (fun l => (w, l)))).foldl
    (fun acc p =>
      let r := process_word_with_llm env p.1 p.2 acc.1
      (r.1, acc.2 + (if r.2 then 1 else 0)))
    (db, 0)

/-! ## Modern LLM service (llm_service_modern.py) -/

/-- Embeds `llm_service_modern.LLMResponse`.  The wall-clock `response_time` and
`cost` fields are untouched by every claim and depend on real time, so they
are not carried. -/
structure ModernResponse where
  content : String
  provider : String
  model : String
  tokens_used : Option Nat
  error : Option String
  cached : Bool
deriving Repr, DecidableEq

/-- The error response built after the retry loop exhausts its attempts
(llm_service_modern.py lines 326-331). -/
def retryErrorResponse (pname : String) (lastError : Option String) : ModernResponse :=
  { content := "", provider := pname, model := "error", tokens_used := none,
    error := lastError, cached := false }

/-- The `for attempt in range(max_retries)` loop of
`make_request_with_retry` (llm_service_modern.py lines 304-331).
`attemptRes k` is the outcome of the k-th (0-based) provider attempt:
`.ok r` the returned response, `.error e` the exception message.  Returns
the response, the list of back-off delays slept (in seconds, `retryDelay *
2 ^ attempt` after each failed non-final attempt), and the number of
attempts made.  `rem` counts the remaining iterations, so the current
attempt index is `maxRetries - rem`. -/
def retryAux (attemptRes : Nat → Except String ModernResponse) (retryDelay : ℚ)
    (pname : String) (maxRetries : Nat) :
    Nat → Option String → ModernResponse × List ℚ × Nat
  | 0, lastError => (retryErrorResponse pname lastError, [], 0)
  | rem + 1, _ =>
    let attemptIdx := maxRetries - (rem + 1)
    match attemptRes attemptIdx with
    | .ok r => (r, [], 1)
    | .error e =>
      let rest := retryAux attemptRes retryDelay pname maxRetries rem (some e)
      if rem = 0 then (rest.1, rest.2.1, rest.2.2 + 1)
      else (rest.1, retryDelay * 2 ^ attemptIdx :: rest.2.1, rest.2.2 + 1)

/-- Embeds `LLMService.make_request_with_retry` (llm_service_modern.py lines
282-331) with the service constants of `LLMService.__init__` (lines
215-221): `max_retries = 3`, `retry_delay = 1.0`.  `cached` is the
(TTL-checked) result of `_get_from_cache`; `configured` whether the
provider is in `self.providers`.  On a cache hit the cached response is
returned with `cached := true` and no attempt is made; on a missing
provider an error response is returned with no attempt. -/
def make_request_with_retry (cached : Option ModernResponse) (configured : Bool)
    (attemptRes : Nat → Except String ModernResponse) (pname : String) :
    ModernResponse × List ℚ × Nat :=
  match cached with
  | some r => ({ r with cached := true }, [], 0)
  | none =>
    if configured then retryAux attemptRes 1 pname 3 3 none
    else ({ content := "", provider := pname, model := "unavailable",
            tokens_used := none,
            error := some ("Provider " ++ pname ++ " not configured"),
            cached := false }, [], 0)

/-! ## Brand-project CRUD (main.py) -/

/-- The persisted state the brand-project endpoints read and write. -/
structure BPState where
  word_groups : List Nat
  projects : List ProjectRec
  competitors : List CompetitorRec
  nextUuid : Nat
deriving Repr, DecidableEq

/-- Request body of `POST /api/brand-projects`: `schemas.BrandProjectCreate`
(schemas.py lines 126-131).  The schema declares exactly name, brand_name,
brand_description, keywords_count (default 50) and competitors (default
[]); it does NOT declare `word_group_id`, even though the create handler
reads that attribute. -/
structure BrandProjectCreate where
  name : String
  brand_name : String
  brand_description : String
  keywords_count : Nat
  competitors : List String
deriving Repr, DecidableEq

/-- Reading an attribute a Pydantic model does not declare raises
`AttributeError`.  `word_group_id` is such an attribute of
`BrandProjectCreate`, so the read at main.py line 1091 always raises;
`.error ()` stands for that exception. -/
def BrandProjectCreate.read_word_group_id (_ : BrandProjectCreate) :
    Except Unit (Option Nat) :=
  .error ()

/-- Request body of `PUT /api/brand-projects/{id}`:
`schemas.BrandProjectUpdate` (schemas.py lines 133-137): four optional
scalar fields.  It declares neither `word_group_id` nor `competitors`, even
though the update handler reads both. -/
structure BrandProjectUpdate where
  name : Option String
  brand_name : Option String
  brand_description : Option String
  keywords_count : Option Nat
deriving Repr, DecidableEq

/-- The `project_data.word_group_id` read of the update handler (main.py
lines 1182, 1199, 1218): `BrandProjectUpdate` declares no such field, so the
read always raises `AttributeError`. -/
def BrandProjectUpdate.read_word_group_id (_ : BrandProjectUpdate) :
    Except Unit (Option Nat) :=
  .error ()

/-- The `project_data.competitors` read of the update handler (main.py line
1222): `BrandProjectUpdate` declares no such field, so the read always
raises `AttributeError`. -/
def BrandProjectUpdate.read_competitors (_ : BrandProjectUpdate) :
    Except Unit (Option (List String)) :=
  .error ()

/-- Competitor rows built from a list of (already stripped) names with
consecutive fresh uuids. -/
def mkCompetitorRows (projectId : Nat) : Nat → List String → List CompetitorRec
  | _, [] => []
  | u, n :: rest =>
    { uuid := u, name := n, project_id := projectId } ::
      mkCompetitorRows projectId (u + 1) rest

/-- The optional word-group existence check shared by the create and update
endpoints (main.py lines 1094-1102 and 1199-1207): accept when no group id
is supplied, else require the group row to exist. -/
def word_group_ok (wgid : Option Nat) (groups : List Nat) : Bool :=
  match wgid with
  | some g => groups.contains g
  | none => true

/-- Embeds `main.create_brand_project` (main.py lines 1083-1170).  The
handler's first statement (line 1091) logs `project_data.word_group_id`,
an attribute `schemas.BrandProjectCreate` does not declare: the read raises
`AttributeError`, the blanket except at lines 1165-1170 rolls back and
returns 500, so the endpoint fails on every request and nothing is inserted.
The continuation after the read — word-group check (400 on failure), project
insert, one Competitor row per entry of the first 10 of `competitors or []`
with each name stripped (lines 1119-1127), returning the new state and
project uuid — is translated as the source writes it, but is unreachable. -/
def create_brand_project (uid : Nat) (pd : BrandProjectCreate) (st : BPState) :
    Except Unit (BPState × Nat) :=
  match pd.read_word_group_id with
  | .error _ => .error ()
  | .ok wgid =>
    if word_group_ok wgid st.word_groups then
      let pidNew := st.nextUuid
      let names := (pd.competitors.take 10).map pyStrip
      .ok ({ st with
              projects := st.projects ++
                [{ uuid := pidNew, name := pd.name, brand_name := pd.brand_name,
                   word_group_id := wgid, user_id := uid, status := 1 }],
              competitors := st.competitors ++ mkCompetitorRows pidNew (st.nextUuid + 1) names,
              nextUuid := st.nextUuid + 1 + names.length },
            pidNew)
    else .error ()

/-- The competitor names stored by `main.update_brand_project` (main.py
lines 1230-1237): first 10 entries, stripped, entries blank after stripping
skipped. -/
def update_competitor_names (names : List String) : List String :=
  ((names.take 10).map pyStrip).filter (fun n => n != "")

/-- Embeds `main.update_brand_project` (main.py lines 1173-1284).  The
handler's first statement (line 1182) logs `project_data.word_group_id`, an
attribute `schemas.BrandProjectUpdate` does not declare: the read raises
`AttributeError`, the except at lines 1279-1284 rolls back and returns 500,
so the endpoint fails on every request and stores nothing.  The unreachable
continuation — find the caller's project (404 if absent), optional
word-group check (400), scalar field updates, and the competitor
replacement, whose own `project_data.competitors` read at line 1222 would
raise the same way — is translated as the source writes it. -/
def update_brand_project (pid uid : Nat) (pd : BrandProjectUpdate) (st : BPState) :
    Except Unit BPState :=
  match pd.read_word_group_id with
  | .error _ => .error ()
  | .ok wgid =>
    match st.projects.find? (fun p => p.uuid == pid && p.user_id == uid) with
    | none => .error ()
    | some _ =>
      if word_group_ok wgid st.word_groups then
        let projects := st.projects.map (fun p =>
          if p.uuid == pid && p.user_id == uid then
            { p with name := pd.name.getD p.name,
                     brand_name := pd.brand_name.getD p.brand_name,
                     word_group_id := match wgid with
                       | some g => some g
                       | none => p.word_group_id }
          else p)
        match pd.read_competitors with
        | .error _ => .error ()
        | .ok none => .ok { st with projects := projects }
        | .ok (some cs) =>
          let kept := st.competitors.filter (fun c => !(c.project_id == pid))
          .ok { st with
                projects := projects,
                competitors := kept ++
                  mkCompetitorRows pid st.nextUuid (update_competitor_names cs),
                nextUuid := st.nextUuid + (update_competitor_names cs).length }
      else .error ()

/-- Embeds `main.get_brand_project` (main.py lines 1327-1364): find the caller's
project by uuid (404 if absent, no status filter), and return it with the
names of its Competitor rows. -/
def get_brand_project (pid uid : Nat) (st : BPState) :
    Except Unit (ProjectRec × List String) :=
  match st.projects.find? (fun p => p.uuid == pid && p.user_id == uid) with
  | none => .error ()
  | some p =>
    .ok (p, (st.competitors.filter (fun c => c.project_id == p.uuid)).map
      (fun c => c.name))

/-- Embeds `main.delete_brand_project` (main.py lines 1433-1450): find the caller's
project (404 if absent), then soft-delete it by setting `status = 0`.  No
row is removed from any table. -/
def delete_brand_project (pid uid : Nat) (st : BPState) : Except Unit BPState :=
  match st.projects.find? (fun p => p.uuid == pid && p.user_id == uid) with
  | none => .error ()
  | some _ =>
    .ok { st with projects := st.projects.map (fun p =>
            if p.uuid == pid && p.user_id == uid then { p with status := 0 } else p) }

/-! ## Theorems -/

/-- C3, as stated, is false: the parse step of
`extract_companies_from_response_direct` (main.py lines 269-270) has no
minimum-length filter, so on the reply `"AB, CD"` it returns the
2-character entry `"AB"`. -/
theorem C3_counterexample :
    "AB" ∈ extract_companies_direct_parse "AB, CD" ∧ "AB".length ≤ 2 := by
  decide

/-- C3 amended: every extraction parse returns at most 10 entries, but only
`llm_service.extract_companies_from_text` (lines 183-185) discards entries
of length ≤ 2; the direct (main.py) and worker (llm_worker.py) parsers keep
them. -/
theorem C3_amended_caps (s : String) (jl : Except Unit (Option (List String))) :
    (extract_companies_from_text_parse s).length ≤ 10 ∧
    (∀ c ∈ extract_companies_from_text_parse s, 2 < c.length) ∧
    (extract_companies_direct_parse s).length ≤ 10 ∧
    (extract_companies_worker_parse jl s).length ≤ 10 := by
  refine ⟨?_, ?_, ?_, ?_⟩
  · simp only [extract_companies_from_text_parse]
    exact List.length_take_le _ _
  · intro c hc
    simp only [extract_companies_from_text_parse] at hc
    have hc2 := List.mem_of_mem_take hc
    have hp := (List.mem_filter.mp hc2).2
    simp only [Bool.and_eq_true, decide_eq_true_eq] at hp
    exact hp.2
  · simp only [extract_companies_direct_parse]
    exact List.length_take_le _ _
  · cases jl with
    | ok o =>
      cases o with
      | some l =>
        simp only [extract_companies_worker_parse]
        exact List.length_take_le _ _
      | none => simp [extract_companies_worker_parse]
    | error e =>
      simp only [extract_companies_worker_parse]
      exact List.length_take_le _ _

/-- Witness for `C3_amended_caps` at the concrete reply `"Alpha, BB"`. -/
theorem C3_amended_witness :
    (extract_companies_from_text_parse "Alpha, BB").length ≤ 10 ∧
    2 < "Alpha".length :=
  ⟨(C3_amended_caps "Alpha, BB" (.error ())).1,
   (C3_amended_caps "Alpha, BB" (.error ())).2.1 "Alpha" (by decide)⟩

/-- C4: on the spec's scenario text with brand "TechCorp" and competitors
["Microsoft"], the worker analyzer reports the brand mentioned at line 1
and the competitor "Microsoft" mentioned at line 2, with confidence 95. -/
theorem C4_scenario :
    analyze_brand_mentions_in_response
      "1. TechCorp - leading software vendor\n2. Microsoft - cloud services"
      ["TechCorp"] ["Microsoft"] =
    { brand_mentioned := true, competitor_mentioned := true,
      mentioned_brands := ["TechCorp"], mentioned_competitors := ["Microsoft"],
      mentioned_competitor := some "Microsoft", brand_position := some 1,
      competitor_position := some 2, confidence := 95 } := by
  decide

/-- C5: when the brand name does not occur case-insensitively in the
response text, `brand_mentioned` is false — in the worker analyzer (called
with the single-brand list the worker passes) and in every mention row the
direct analyzer writes. -/
theorem C5_absent_brand_not_mentioned :
    (∀ (llm_response brand : String) (competitor_names : List String),
        occursCI brand llm_response = false →
        (analyze_brand_mentions_in_response llm_response [brand]
          competitor_names).brand_mentioned = false) ∧
    (∀ (projects : List ProjectRec) (competitors : List CompetitorRec)
        (groupId serpId : Nat) (llm_response : String) (m : MentionRec),
        m ∈ analyze_brand_mentions_for_word_direct projects competitors groupId
          serpId llm_response →
        (∀ p ∈ projects, occursCI p.brand_name llm_response = false) →
        m.brand_mentioned = 0) := by
  constructor
  · intro resp brand comps h
    by_cases he : resp = ""
    · simp [analyze_brand_mentions_in_response, he]
    · simp [analyze_brand_mentions_in_response, he, brandScan, h]
  · intro projects comps gid sid resp m hm hall
    simp only [analyze_brand_mentions_for_word_direct, List.mem_flatMap] at hm
    obtain ⟨p, hp, hmp⟩ := hm
    have hpmem := (List.mem_filter.mp hp).1
    have hb : occursCI p.brand_name resp = false := hall p hpmem
    split at hmp
    · simp only [List.mem_singleton] at hmp
      subst hmp
      simp [hb]
    · obtain ⟨c, hc, hmc⟩ := List.mem_map.mp hmp
      subst hmc
      simp [hb]

/-- Witness for `C5_absent_brand_not_mentioned`: brand "Zeta" absent from
"hello world" (worker analyzer), and the direct analyzer's row for a
project whose brand is absent. -/
theorem C5_witness :
    (analyze_brand_mentions_in_response "hello world" ["Zeta"]
        ["Microsoft"]).brand_mentioned = false ∧
    ({ serp_id := 5, project_id := 1, brand_mentioned := 0,
       competitor_mentioned := 0, mentioned_competitor := none,
       brand_position := none, competitor_position := none,
       analysis_confidence := 100 } : MentionRec).brand_mentioned = 0 :=
  ⟨C5_absent_brand_not_mentioned.1 "hello world" "Zeta" ["Microsoft"] (by decide),
   C5_absent_brand_not_mentioned.2
     [{ uuid := 1, name := "P", brand_name := "Zeta", word_group_id := some 4,
        user_id := 9, status := 1 }] [] 4 5 "hello world"
     { serp_id := 5, project_id := 1, brand_mentioned := 0,
       competitor_mentioned := 0, mentioned_competitor := none,
       brand_position := none, competitor_position := none,
       analysis_confidence := 100 }
     (by decide) (by decide)⟩

/-- C9: in the direct analysis path, every competitor of a brand project
linked to the word's group gets a mention row carrying its name in
`mentioned_competitor`, while `competitor_mentioned` only records whether
the name occurs in the response — so the name is stored even when
`competitor_mentioned = 0`. -/
theorem C9_direct_mentions_every_competitor :
    ∀ (projects : List ProjectRec) (competitors : List CompetitorRec)
      (groupId serpId : Nat) (llm_response : String) (p : ProjectRec)
      (c : CompetitorRec),
      p ∈ projects → p.word_group_id = some groupId →
      c ∈ competitors → c.project_id = p.uuid →
      ∃ m ∈ analyze_brand_mentions_for_word_direct projects competitors groupId
          serpId llm_response,
        m.project_id = p.uuid ∧ m.mentioned_competitor = some c.name ∧
        m.competitor_mentioned = (if occursCI c.name llm_response then 1 else 0) := by
  intro projects comps gid sid resp p c hp hpg hc hcp
  have hpf : p ∈ projects.filter (fun q => q.word_group_id == some gid) :=
    List.mem_filter.mpr ⟨hp, by simp [hpg]⟩
  have hcf : c ∈ comps.filter (fun x => x.project_id == p.uuid) :=
    List.mem_filter.mpr ⟨hc, by simp [hcp]⟩
  have hne : (comps.filter (fun x => x.project_id == p.uuid)).isEmpty = false := by
    cases hcl : comps.filter (fun x => x.project_id == p.uuid) with
    | nil => rw [hcl] at hcf; cases hcf
    | cons a t => rfl
  refine ⟨{ serp_id := sid, project_id := p.uuid,
            brand_mentioned := if occursCI p.brand_name resp then 1 else 0,
            competitor_mentioned := if occursCI c.name resp then 1 else 0,
            mentioned_competitor := some c.name,
            brand_position := none, competitor_position := none,
            analysis_confidence := 100 }, ?_, rfl, rfl, rfl⟩
  unfold analyze_brand_mentions_for_word_direct
  refine List.mem_flatMap.mpr ⟨p, hpf, ?_⟩
  simp only [hne, Bool.false_eq_true, if_false]
  exact List.mem_map.mpr ⟨c, hcf, rfl⟩

/-- Witness for `C9_direct_mentions_every_competitor`: the competitor
"Rival" does not occur in "hello", yet its row exists with its name and
`competitor_mentioned = 0`. -/
theorem C9_witness :
    (∃ m ∈ analyze_brand_mentions_for_word_direct
        [{ uuid := 1, name := "P", brand_name := "B", word_group_id := some 4,
           user_id := 9, status := 1 }]
        [{ uuid := 2, name := "Rival", project_id := 1 }] 4 5 "hello",
      m.project_id = 1 ∧ m.mentioned_competitor = some "Rival" ∧
      m.competitor_mentioned = (if occursCI "Rival" "hello" then 1 else 0)) ∧
    (if occursCI "Rival" "hello" then 1 else 0) = 0 :=
  ⟨C9_direct_mentions_every_competitor
      [{ uuid := 1, name := "P", brand_name := "B", word_group_id := some 4,
         user_id := 9, status := 1 }]
      [{ uuid := 2, name := "Rival", project_id := 1 }] 4 5 "hello"
      { uuid := 1, name := "P", brand_name := "B", word_group_id := some 4,
        user_id := 9, status := 1 }
      { uuid := 2, name := "Rival", project_id := 1 }
      (by decide) (by decide) (by decide) (by decide),
   by decide⟩

/-- Appending rows never falsifies the freshness probe. -/
theorem freshExists_append (s t : List SerpRec) (w l : Nat) (T : Int)
    (h : freshExists s w l T = true) : freshExists (s ++ t) w l T = true := by
  simp only [freshExists, List.any_append, Bool.or_eq_true]
  left
  exact h

/-- One direct-path pair step only appends serp rows, all belonging to its
own pair, and appends none when the pair already has a fresh row. -/
theorem processPairDirect_serps (env : Env) (w : WordRec) (l : LLMRec) (db : DB) :
    ∃ ns, (processPairDirect env w l db).serps = db.serps ++ ns ∧
      (∀ s ∈ ns, s.word_id = w.uuid ∧ s.llm_id = l.uuid) ∧
      (freshExists db.serps w.uuid l.uuid (two_weeks_ago env.now) = true → ns = []) := by
  unfold processPairDirect
  by_cases hf : freshExists db.serps w.uuid l.uuid (two_weeks_ago env.now) = true
  · exact ⟨[], by simp [hf], by simp, fun _ => rfl⟩
  · rw [if_neg hf]
    cases hfetch : env.fetch w.uuid l.uuid with
    | none => exact ⟨[], by simp, by simp, fun _ => rfl⟩
    | some text =>
      dsimp only
      by_cases ht : text = ""
      · exact ⟨[], by simp [ht], by simp, fun _ => rfl⟩
      · rw [if_neg ht]
        cases hex : env.extract text with
        | error e =>
          refine ⟨[{ uuid := db.nextUuid, word_id := w.uuid, llm_id := l.uuid,
                     content := text, create_time := env.now }], rfl, ?_, fun hh => absurd hh hf⟩
          intro s hs
          rw [List.mem_singleton] at hs
          subst hs
          exact ⟨rfl, rfl⟩
        | ok companies =>
          cases hg : w.group_id with
          | none =>
            refine ⟨[{ uuid := db.nextUuid, word_id := w.uuid, llm_id := l.uuid,
                       content := text, create_time := env.now }], rfl, ?_,
                    fun hh => absurd hh hf⟩
            intro s hs
            rw [List.mem_singleton] at hs
            subst hs
            exact ⟨rfl, rfl⟩
          | some gid =>
            refine ⟨[{ uuid := db.nextUuid, word_id := w.uuid, llm_id := l.uuid,
                       content := text, create_time := env.now }], rfl, ?_,
                    fun hh => absurd hh hf⟩
            intro s hs
            rw [List.mem_singleton] at hs
            subst hs
            exact ⟨rfl, rfl⟩

/-- A pair step preserves the serp rows of a pair that is already fresh,
and preserves its freshness. -/
theorem processPairDirect_pairSerps (env : Env) (w1 : WordRec) (l1 : LLMRec)
    (db : DB) (w l : Nat)
    (h : freshExists db.serps w l (two_weeks_ago env.now) = true) :
    pairSerps (processPairDirect env w1 l1 db).serps w l = pairSerps db.serps w l ∧
    freshExists (processPairDirect env w1 l1 db).serps w l (two_weeks_ago env.now)
      = true := by
  obtain ⟨ns, hser, hmem, hfr⟩ := processPairDirect_serps env w1 l1 db
  constructor
  · rw [hser]
    unfold pairSerps
    rw [List.filter_append]
    have hnil : ns.filter (fun s => s.word_id == w && s.llm_id == l) = [] := by
      by_cases hwl : w1.uuid = w ∧ l1.uuid = l
      · have hfr2 : freshExists db.serps w1.uuid l1.uuid (two_weeks_ago env.now)
            = true := by
          rw [hwl.1, hwl.2]
          exact h
        rw [hfr hfr2]
        rfl
      · refine List.filter_eq_nil_iff.mpr ?_
        intro s hs
        obtain ⟨h1, h2⟩ := hmem s hs
        intro hcontra
        simp only [Bool.and_eq_true, beq_iff_eq] at hcontra
        exact hwl ⟨h1.symm.trans hcontra.1, h2.symm.trans hcontra.2⟩
    rw [hnil, List.append_nil]
  · rw [hser]
    exact freshExists_append _ _ _ _ _ h

/-- Folding pair steps over any pair list cannot touch the serp rows of a
pair that starts out fresh. -/
theorem foldPairs_pairSerps (env : Env) (pairs : List (WordRec × LLMRec))
    (db : DB) (w l : Nat)
    (h : freshExists db.serps w l (two_weeks_ago env.now) = true) :
    pairSerps ((pairs.foldl (fun d p => processPairDirect env p.1 p.2 d) db).serps) w l
      = pairSerps db.serps w l := by
  induction pairs generalizing db with
  | nil => rfl
  | cons p rest ih =>
    simp only [List.foldl_cons]
    obtain ⟨h1, h2⟩ := processPairDirect_pairSerps env p.1 p.2 db w l h
    rw [ih _ h2, h1]

/-- C1: a batch run of `update_serp_data_direct` creates no SerpResult for a
keyword/provider pair that already has one newer than the 14-day threshold:
that pair's serp rows after the run are exactly the rows before it. -/
theorem C1_fresh_pair_not_refetched (env : Env) (words : List WordRec)
    (llms : List LLMRec) (groupId : Option Nat) (db : DB) (wordId llmId : Nat)
    (h : freshExists db.serps wordId llmId (two_weeks_ago env.now) = true) :
    pairSerps (update_serp_data_direct env words llms groupId db).serps wordId llmId
      = pairSerps db.serps wordId llmId := by
  unfold update_serp_data_direct
  exact foldPairs_pairSerps env _ db wordId llmId h

/-- Witness for `C1_fresh_pair_not_refetched`: one word, one provider, a
fresh serp row already present. -/
theorem C1_witness :
    pairSerps (update_serp_data_direct
        { now := 0, projects := [], competitors := [],
          fetch := fun _ _ => some "resp", extract := fun _ => .ok [] }
        [{ uuid := 1, name := "kw", group_id := none, status := 1 }]
        [{ uuid := 2, name := "openai", is_active := 1 }] none
        { serps := [{ uuid := 0, word_id := 1, llm_id := 2, content := "old",
                      create_time := 0 }],
          companies := [], mentions := [], nextUuid := 3 }).serps 1 2
      = pairSerps [{ uuid := 0, word_id := 1, llm_id := 2, content := "old",
                     create_time := 0 }] 1 2 :=
  C1_fresh_pair_not_refetched _ _ _ _ _ 1 2 (by decide)

/-- C2, as stated, is false on the direct path: company extraction raises
for the only pair, yet the SerpResult flushed before the failure survives
the batch (the per-pair handler in `update_serp_data_direct` only logs and
`continue`s, with no rollback). -/
theorem C2_counterexample :
    (({ now := 0, projects := [], competitors := [],
        fetch := fun _ _ => some "resp",
        extract := fun _ => .error () } : Env).extract "resp" = .error ()) ∧
    (update_serp_data_direct
        { now := 0, projects := [], competitors := [],
          fetch := fun _ _ => some "resp", extract := fun _ => .error () }
        [{ uuid := 1, name := "kw", group_id := none, status := 1 }]
        [{ uuid := 2, name := "openai", is_active := 1 }] none
        { serps := [], companies := [], mentions := [], nextUuid := 0 }).serps
      = [{ uuid := 0, word_id := 1, llm_id := 2, content := "resp",
           create_time := 0 }] :=
  ⟨rfl, rfl⟩

/-- C2 amended: a per-pair exception leaves the outer loop running in both
paths, but only the worker path rolls the pair's writes back; in the direct
path the SerpResult flushed before the failure is kept (and later
committed), companies and mentions staying as they were. -/
theorem C2_amended :
    (∀ (env : WorkerEnv) (w : WordRec) (l : LLMRec) (db : DB),
        env.raises w.uuid l.uuid = true →
        process_word_with_llm env w l db = (db, false)) ∧
    (∀ (env : WorkerEnv) (w1 w2 : WordRec) (l : LLMRec) (db : DB),
        env.raises w1.uuid l.uuid = true → w1.status = 1 →
        run_worker_cycle env [w1, w2] [l] db = run_worker_cycle env [w2] [l] db) ∧
    (∀ (env : Env) (w : WordRec) (l : LLMRec) (db : DB) (text : String),
        freshExists db.serps w.uuid l.uuid (two_weeks_ago env.now) = false →
        env.fetch w.uuid l.uuid = some text → text ≠ "" →
        env.extract text = .error () →
        processPairDirect env w l db =
          { db with serps := db.serps ++ [newSerp env w l db text], nextUuid := db.nextUuid + 1 }) := by
  refine ⟨?_, ?_, ?_⟩
  · intro env w l db hr
    simp [process_word_with_llm, hr]
  · intro env w1 w2 l db hr hs1
    have hpw : process_word_with_llm env w1 l db = (db, false) := by
      simp [process_word_with_llm, hr]
    have hs1b : (w1.status == 1) = true := by simp [hs1]
    by_cases hl : (l.is_active == 1) = true
    · simp only [run_worker_cycle, List.filter_cons, List.filter_nil, hs1b, hl,
        if_true, List.flatMap_cons, List.map_cons, List.map_nil, List.foldl_append,
        List.foldl_cons, List.foldl_nil, hpw]
      simp
    · simp only [run_worker_cycle, List.filter_cons, List.filter_nil, hs1b, hl,
        if_true, if_false, Bool.false_eq_true, List.map_nil, List.flatMap_cons,
        List.foldl_append, List.foldl_nil]
  · intro env w l db text hf hfe ht hex
    unfold processPairDirect
    rw [hf, if_neg Bool.false_ne_true, hfe]
    dsimp only
    rw [if_neg ht, hex]
    rfl

/-- Witness for `C2_amended`: a raising worker pair leaves the state intact;
a failing direct-path extraction keeps the flushed serp row. -/
theorem C2_amended_witness :
    process_word_with_llm
      { now := 0, projects := [], competitors := [],
        fetch := fun _ _ => some "t", extractW := fun _ => [],
        raises := fun _ _ => true }
      { uuid := 1, name := "kw", group_id := none, status := 1 }
      { uuid := 2, name := "openai", is_active := 1 }
      { serps := [], companies := [], mentions := [], nextUuid := 0 }
      = ({ serps := [], companies := [], mentions := [], nextUuid := 0 }, false) ∧
    processPairDirect
      { now := 0, projects := [], competitors := [],
        fetch := fun _ _ => some "resp", extract := fun _ => .error () }
      { uuid := 1, name := "kw", group_id := none, status := 1 }
      { uuid := 2, name := "openai", is_active := 1 }
      { serps := [], companies := [], mentions := [], nextUuid := 0 }
      = { serps := [{ uuid := 0, word_id := 1, llm_id := 2, content := "resp",
                      create_time := 0 }],
          companies := [], mentions := [], nextUuid := 1 } :=
  ⟨C2_amended.1 _ _ _ _ rfl,
   C2_amended.2.2
     { now := 0, projects := [], competitors := [],
       fetch := fun _ _ => some "resp", extract := fun _ => .error () }
     { uuid := 1, name := "kw", group_id := none, status := 1 }
     { uuid := 2, name := "openai", is_active := 1 }
     { serps := [], companies := [], mentions := [], nextUuid := 0 }
     "resp" rfl rfl (by decide) rfl⟩

/-- C6, as stated, is false: `DELETE /api/brand-projects/{id}` only sets the
project's status to 0; the project's Competitor row survives the call. -/
theorem C6_counterexample :
    delete_brand_project 1 7
      { word_groups := [], nextUuid := 3,
        projects := [{ uuid := 1, name := "P", brand_name := "B",
                       word_group_id := none, user_id := 7, status := 1 }],
        competitors := [{ uuid := 2, name := "Rival", project_id := 1 }] }
      = .ok
      { word_groups := [], nextUuid := 3,
        projects := [{ uuid := 1, name := "P", brand_name := "B",
                       word_group_id := none, user_id := 7, status := 0 }],
        competitors := [{ uuid := 2, name := "Rival", project_id := 1 }] } :=
  rfl

/-- C6 amended: each Competitor row references exactly one BrandProject
through its `project_id` column (`ON DELETE CASCADE` applies only to a hard
row deletion at the database level); the DELETE endpoint soft-deletes — it
sets the matched project's status to 0, removes no project row, and leaves
the competitors table untouched. -/
theorem C6_amended_soft_delete (pid uid : Nat) (st st2 : BPState)
    (h : delete_brand_project pid uid st = .ok st2) :
    st2.competitors = st.competitors ∧
    st2.projects.length = st.projects.length ∧
    st2.word_groups = st.word_groups ∧
    (∀ p ∈ st2.projects, p.uuid = pid → p.user_id = uid → p.status = 0) := by
  unfold delete_brand_project at h
  cases hfind : st.projects.find? (fun p => p.uuid == pid && p.user_id == uid) with
  | none => rw [hfind] at h; cases h
  | some q =>
    rw [hfind] at h
    cases h
    refine ⟨rfl, by simp, rfl, ?_⟩
    intro p hp hpu hpd
    obtain ⟨a, ha, rfl⟩ := List.mem_map.mp hp
    by_cases hcond : (a.uuid == pid && a.user_id == uid) = true
    · simp only [hcond, if_true]
    · rw [if_neg hcond] at hpu hpd ⊢
      exact absurd (by simp [hpu, hpd]) hcond

/-- Witness for `C6_amended_soft_delete` on a one-project, one-competitor
state. -/
theorem C6_amended_witness :
    ({ word_groups := [], nextUuid := 3,
       projects := [{ uuid := 1, name := "P", brand_name := "B",
                      word_group_id := none, user_id := 7, status := 0 }],
       competitors := [{ uuid := 2, name := "Rival", project_id := 1 }] }
        : BPState).competitors
      = ({ word_groups := [], nextUuid := 3,
           projects := [{ uuid := 1, name := "P", brand_name := "B",
                          word_group_id := none, user_id := 7, status := 1 }],
           competitors := [{ uuid := 2, name := "Rival", project_id := 1 }] }
          : BPState).competitors :=
  (C6_amended_soft_delete 1 7
    { word_groups := [], nextUuid := 3,
      projects := [{ uuid := 1, name := "P", brand_name := "B",
                     word_group_id := none, user_id := 7, status := 1 }],
      competitors := [{ uuid := 2, name := "Rival", project_id := 1 }] }
    { word_groups := [], nextUuid := 3,
      projects := [{ uuid := 1, name := "P", brand_name := "B",
                     word_group_id := none, user_id := 7, status := 0 }],
      competitors := [{ uuid := 2, name := "Rival", project_id := 1 }] }
    rfl).1

/-- Complete case analysis of the retry loop at the service constants
(3 attempts, base delay 1): outcome, delays slept and attempts made, for
every behaviour of the provider oracle. -/
theorem retryAux_cases (f : Nat → Except String ModernResponse) (p : String) :
    (∃ r, f 0 = .ok r ∧ retryAux f 1 p 3 3 none = (r, [], 1)) ∨
    (∃ e0 r, f 0 = .error e0 ∧ f 1 = .ok r ∧
        retryAux f 1 p 3 3 none = (r, [1 * 2 ^ 0], 2)) ∨
    (∃ e0 e1 r, f 0 = .error e0 ∧ f 1 = .error e1 ∧ f 2 = .ok r ∧
        retryAux f 1 p 3 3 none = (r, [1 * 2 ^ 0, 1 * 2 ^ 1], 3)) ∨
    (∃ e0 e1 e2, f 0 = .error e0 ∧ f 1 = .error e1 ∧ f 2 = .error e2 ∧
        retryAux f 1 p 3 3 none
          = (retryErrorResponse p (some e2), [1 * 2 ^ 0, 1 * 2 ^ 1], 3)) := by
  cases h0 : f 0 with
  | ok r => exact Or.inl ⟨r, rfl, by simp [retryAux, h0]⟩
  | error e0 =>
    cases h1 : f 1 with
    | ok r =>
      refine Or.inr (Or.inl ⟨e0, r, rfl, rfl, ?_⟩)
      simp [retryAux, h0, h1]
    | error e1 =>
      cases h2 : f 2 with
      | ok r =>
        refine Or.inr (Or.inr (Or.inl ⟨e0, e1, r, rfl, rfl, rfl, ?_⟩))
        simp [retryAux, h0, h1, h2]
      | error e2 =>
        refine Or.inr (Or.inr (Or.inr ⟨e0, e1, e2, rfl, rfl, rfl, ?_⟩))
        simp [retryAux, h0, h1, h2]

/-- C7: the modern service's request path makes at most 3 attempts (and none
on a cache hit or an unconfigured provider), sleeps `retry_delay * 2^k`
after the k-th failed non-final attempt, and when the last attempt also
fails returns an `LLMResponse` carrying the last error instead of raising. -/
theorem C7_retry_discipline :
    (∀ (cached : Option ModernResponse) (configured : Bool)
        (f : Nat → Except String ModernResponse) (p : String),
        (make_request_with_retry cached configured f p).2.2 ≤ 3) ∧
    (∀ (f : Nat → Except String ModernResponse) (p : String),
        (make_request_with_retry none true f p).2.1
          = (List.range (make_request_with_retry none true f p).2.1.length).map
              (fun k => 1 * 2 ^ k)) ∧
    (∀ (f : Nat → Except String ModernResponse) (p : String) (e0 e1 e2 : String),
        f 0 = .error e0 → f 1 = .error e1 → f 2 = .error e2 →
        make_request_with_retry none true f p
          = (retryErrorResponse p (some e2), [1 * 2 ^ 0, 1 * 2 ^ 1], 3)) := by
  have hmk : ∀ f p, make_request_with_retry none true f p = retryAux f 1 p 3 3 none :=
    fun _ _ => rfl
  refine ⟨?_, ?_, ?_⟩
  · intro cached configured f p
    cases cached with
    | some r => simp [make_request_with_retry]
    | none =>
      cases configured with
      | false => simp [make_request_with_retry]
      | true =>
        rw [hmk]
        rcases retryAux_cases f p with ⟨r, _, he⟩ | ⟨e0, r, _, _, he⟩ |
          ⟨e0, e1, r, _, _, _, he⟩ | ⟨e0, e1, e2, _, _, _, he⟩ <;>
          rw [he] <;> norm_num
  · intro f p
    rw [hmk]
    rcases retryAux_cases f p with ⟨r, _, he⟩ | ⟨e0, r, _, _, he⟩ |
      ⟨e0, e1, r, _, _, _, he⟩ | ⟨e0, e1, e2, _, _, _, he⟩ <;> rw [he] <;> rfl
  · intro f p e0 e1 e2 h0 h1 h2
    rw [hmk]
    simp [retryAux, h0, h1, h2]

/-- Witness for `C7_retry_discipline`: a provider failing all three attempts
returns the third error with back-offs 1 and 2 seconds; the attempt count is
bounded. -/
theorem C7_witness :
    make_request_with_retry none true
      (fun k => .error (match k with | 0 => "e0" | 1 => "e1" | _ => "e2")) "prov"
      = (retryErrorResponse "prov" (some "e2"), [1 * 2 ^ 0, 1 * 2 ^ 1], 3) ∧
    (make_request_with_retry none true
      (fun _ => .error "boom") "p").2.2 ≤ 3 :=
  ⟨C7_retry_discipline.2.2
      (fun k => .error (match k with | 0 => "e0" | 1 => "e1" | _ => "e2")) "prov"
      "e0" "e1" "e2" rfl rfl rfl,
   C7_retry_discipline.1 none true (fun _ => .error "boom") "p"⟩

/-- The names of freshly built competitor rows are the given names. -/
theorem mkCompetitorRows_names (pid : Nat) : ∀ (u : Nat) (ns : List String),
    (mkCompetitorRows pid u ns).map (fun c => c.name) = ns := by
  intro u ns
  induction ns generalizing u with
  | nil => rfl
  | cons n rest ih => simp [mkCompetitorRows, ih]

/-- One competitor row is built per given name. -/
theorem mkCompetitorRows_length (pid : Nat) : ∀ (u : Nat) (ns : List String),
    (mkCompetitorRows pid u ns).length = ns.length := by
  intro u ns
  induction ns generalizing u with
  | nil => rfl
  | cons n rest ih => simp [mkCompetitorRows, ih]

/-- Freshly built competitor rows all carry the given project id. -/
theorem mkCompetitorRows_filter_own (pid : Nat) : ∀ (u : Nat) (ns : List String),
    (mkCompetitorRows pid u ns).filter (fun c => c.project_id == pid)
      = mkCompetitorRows pid u ns := by
  intro u ns
  induction ns generalizing u with
  | nil => rfl
  | cons n rest ih => simp [mkCompetitorRows, List.filter_cons, ih]

/-- C8 cannot succeed in the program: `schemas.BrandProjectCreate` lacks the
`word_group_id` attribute whose read is the create handler's first
statement, so POST /api/brand-projects raises `AttributeError`, rolls back
and returns 500 on every request — in particular on the claim's input with
competitors ["A","B","C"] — and no project is ever created to fetch. -/
theorem C8_create_always_500 :
    (∀ (uid : Nat) (pd : BrandProjectCreate) (st : BPState),
        create_brand_project uid pd st = .error ()) ∧
    create_brand_project 9
      { name := "N", brand_name := "B", brand_description := "D",
        keywords_count := 50, competitors := ["A", "B", "C"] }
      { word_groups := [], projects := [], competitors := [], nextUuid := 0 }
      = .error () :=
  ⟨fun _ _ _ => rfl, rfl⟩

/-- C10 describes unreachable code: both the create and the update handler
raise `AttributeError` on their first statement (reading attributes their
request schemas do not declare) and return 500 after rollback, so no
Competitor row is ever stored and the cap-at-10 insert loops never run. -/
theorem C10_endpoints_always_500 :
    (∀ (uid : Nat) (pd : BrandProjectCreate) (st : BPState),
        create_brand_project uid pd st = .error ()) ∧
    (∀ (pid uid : Nat) (pd : BrandProjectUpdate) (st : BPState),
        update_brand_project pid uid pd st = .error ()) ∧
    update_brand_project 1 9
      { name := some "N2", brand_name := none, brand_description := none,
        keywords_count := none }
      { word_groups := [], nextUuid := 3,
        projects := [{ uuid := 1, name := "P", brand_name := "B",
                       word_group_id := none, user_id := 9, status := 1 }],
        competitors := [{ uuid := 2, name := "Rival", project_id := 1 }] }
      = .error () :=
  ⟨fun _ _ _ => rfl, fun _ _ _ _ => rfl, rfl⟩

end Seomax
